import Mathlib

/-!
Shallow embedding of `slide_extractor.py` / `main.py` from the
youtube-slide-extractors repository, together with theorems settling the
frozen claims about its specification.

Modelling conventions:
* raster frames are an abstract type `F`; the external collaborators
  (structural similarity, histogram correlation, OCR) are passed in as
  functions on `F`, exactly as the Python code delegates to `ssim`,
  `cv2.compareHist` and `pytesseract`;
* Python floats are embedded as exact rationals `ℚ` (the literals `0.95`,
  `0.3`, `0.1`, `1.0` become `19/20`, `3/10`, `1/10`, `1`);
* OCR output `text` is modelled by its whitespace word list
  (`text.split()` in the source); since `_extract_text` returns a stripped
  string, Python truthiness of `text` coincides with the word list being
  nonempty.
-/

namespace SlideExtractor

/-- Model of `SlideExtractor._is_different_slide` (slide_extractor.py lines
212-262).  The three checks are performed in source order with the same
short-circuit structure: structural similarity below the user threshold,
histogram correlation below `0.95`, and OCR word-set divergence above `0.3`
(the latter only when both OCR results are nonempty and both word sets have
more than 3 distinct words). -/
def is_different_slide {F : Type} (ssimScore histCorrel : F → F → ℚ)
    (ocrWords : F → List String) (similarity_threshold : ℚ)
    (frame1 frame2 : F) : Bool :=
  if ssimScore frame1 frame2 < similarity_threshold then true
  else if histCorrel frame1 frame2 < 19/20 then true
  else
    let text1 := ocrWords frame1
    let text2 := ocrWords frame2
    if text1 ≠ [] ∧ text2 ≠ [] then
      let words1 := text1.toFinset
      let words2 := text2.toFinset
      if 3 < words1.card ∧ 3 < words2.card then
        let common_words := words1 ∩ words2
        let diff_ratio : ℚ :=
          1 - (common_words.card : ℚ) / ((max words1.card words2.card : ℕ) : ℚ)
        if 3/10 < diff_ratio then true else false
      else false
    else false

/-- Signal 1 of the spec: the grayscale structural-similarity score is below
the user threshold. -/
def ssimSignal {F : Type} (ssimScore : F → F → ℚ) (similarity_threshold : ℚ)
    (frame1 frame2 : F) : Bool :=
  decide (ssimScore frame1 frame2 < similarity_threshold)

/-- Signal 2 of the spec: the grayscale 256-bin histogram correlation is
below `0.95`. -/
def histSignal {F : Type} (histCorrel : F → F → ℚ) (frame1 frame2 : F) : Bool :=
  decide (histCorrel frame1 frame2 < 19/20)

/-- Signal 3 of the spec: both recognized word sets have more than 3
distinct words and the Jaccard-complement
`1 - |common| / max(|words1|, |words2|)` exceeds `0.3`. -/
def textSignal {F : Type} (ocrWords : F → List String) (frame1 frame2 : F) : Bool :=
  decide (3 < (ocrWords frame1).toFinset.card) &&
  decide (3 < (ocrWords frame2).toFinset.card) &&
  decide ((3 : ℚ)/10 <
    1 - (((ocrWords frame1).toFinset ∩ (ocrWords frame2).toFinset).card : ℚ) /
      ((max (ocrWords frame1).toFinset.card (ocrWords frame2).toFinset.card : ℕ) : ℚ))

lemma toFinset_card_pos_ne_nil {l : List String} (h : 3 < l.toFinset.card) :
    l ≠ [] := by
  intro hnil
  subst hnil
  simp at h

/-- Structural restatement of `_is_different_slide`: the verdict is the
disjunction of the three signals. -/
lemma isDifferent_eq_signals {F : Type} (ssimScore histCorrel : F → F → ℚ)
    (ocrWords : F → List String) (t : ℚ) (a b : F) :
    is_different_slide ssimScore histCorrel ocrWords t a b =
      (ssimSignal ssimScore t a b || histSignal histCorrel a b ||
        textSignal ocrWords a b) := by
  simp only [is_different_slide, ssimSignal, histSignal, textSignal]
  by_cases h1 : ssimScore a b < t
  · simp [h1]
  by_cases h2 : histCorrel a b < 19/20
  · simp [h1, h2]
  by_cases h3 : 3 < (ocrWords a).toFinset.card
  · by_cases h4 : 3 < (ocrWords b).toFinset.card
    · have hne1 : ocrWords a ≠ [] := toFinset_card_pos_ne_nil h3
      have hne2 : ocrWords b ≠ [] := toFinset_card_pos_ne_nil h4
      by_cases h5 : (3 : ℚ)/10 <
          1 - (((ocrWords a).toFinset ∩ (ocrWords b).toFinset).card : ℚ) /
            ((max (ocrWords a).toFinset.card (ocrWords b).toFinset.card : ℕ) : ℚ)
      · simp [h1, h2, h3, h4, h5, hne1, hne2]
      · simp [h1, h2, h3, h4, h5, hne1, hne2]
    · by_cases hne : ocrWords a ≠ [] ∧ ocrWords b ≠ [] <;> simp [h1, h2, h4, hne]
  · by_cases hne : ocrWords a ≠ [] ∧ ocrWords b ≠ [] <;> simp [h1, h2, h3, hne]

/-- C1: for every pair of frames and every threshold, the verdict of
`_is_different_slide` equals the logical OR of the three independent
signals (structural similarity below threshold, histogram correlation below
0.95, and the gated word-set divergence above 0.3); any one signal firing
is sufficient and if none fires the frames are judged the same slide. -/
theorem verdict_eq_or_of_three_signals {F : Type}
    (ssimScore histCorrel : F → F → ℚ) (ocrWords : F → List String)
    (t : ℚ) (prev cand : F) :
    is_different_slide ssimScore histCorrel ocrWords t prev cand =
      (ssimSignal ssimScore t prev cand || histSignal histCorrel prev cand ||
        textSignal ocrWords prev cand) :=
  isDifferent_eq_signals ssimScore histCorrel ocrWords t prev cand

lemma textSignal_comm {F : Type} (ocrWords : F → List String) (a b : F) :
    textSignal ocrWords a b = textSignal ocrWords b a := by
  unfold textSignal
  rw [Finset.inter_comm, Nat.max_comm]
  by_cases h1 : 3 < (ocrWords a).toFinset.card <;>
    by_cases h2 : 3 < (ocrWords b).toFinset.card <;> simp [h1, h2]

/-- C10: treating OCR as a fixed function of the frame, the verdict of
`_is_different_slide` is symmetric in its two frame arguments whenever the
structural-similarity score and the histogram correlation are themselves
invariant under swapping the two frames (the word-set gate and the
diff-ratio, built from set intersection and max of set sizes, are
symmetric unconditionally). -/
theorem verdict_symmetric {F : Type} (ssimScore histCorrel : F → F → ℚ)
    (ocrWords : F → List String) (t : ℚ) (a b : F)
    (hs : ssimScore a b = ssimScore b a)
    (hh : histCorrel a b = histCorrel b a) :
    is_different_slide ssimScore histCorrel ocrWords t a b =
      is_different_slide ssimScore histCorrel ocrWords t b a := by
  rw [isDifferent_eq_signals, isDifferent_eq_signals, textSignal_comm]
  unfold ssimSignal histSignal
  rw [hs, hh]

/-- Constant structural-similarity collaborator used by concrete witnesses. -/
def constScore : ℕ → ℕ → ℚ := fun _ _ => 1

/-- Constant histogram-correlation collaborator used by concrete witnesses. -/
def constCorrel : ℕ → ℕ → ℚ := fun _ _ => 1

/-- OCR collaborator recognizing no text, used by concrete witnesses. -/
def noText : ℕ → List String := fun _ => []

/-- Witness for C10 at concrete frames 0 and 1 with concrete symmetric
collaborators and threshold 0.7. -/
theorem verdict_symmetric_witness :
    constScore 0 1 = constScore 1 0 ∧ constCorrel 0 1 = constCorrel 1 0 ∧
    is_different_slide constScore constCorrel noText (7/10) 0 1 =
      is_different_slide constScore constCorrel noText (7/10) 1 0 :=
  ⟨rfl, rfl, verdict_symmetric constScore constCorrel noText (7/10) 0 1 rfl rfl⟩

/-! Frame sampler and extraction loop (`extract_slides`,
slide_extractor.py lines 126-210). -/

/-- Model of the Python builtin `int()` applied to a float: truncation
toward zero. -/
def pyInt (q : ℚ) : ℤ :=
  if 0 ≤ q then ⌊q⌋ else -(⌊-q⌋)

/-- Model of Python `range(0, total, step)` for `step > 0`: the multiples
of `step` below `total`, in increasing order.  (For `step = 0` Python
raises; this model returns `[]` and theorems carry a `0 < step`
hypothesis.) -/
def rangeStep (total step : ℕ) : List ℕ :=
  (List.range ((total + step - 1) / step)).map (fun k => k * step)

/-- Model of `frame_interval = int(fps * self.interval)`
(slide_extractor.py line 147). -/
def frame_interval (fps : ℚ) (interval : ℕ) : ℤ :=
  pyInt (fps * interval)

/-- Decoded video source: frame rate, total frame count, and the decoder
(`cap.set(CAP_PROP_POS_FRAMES, n); cap.read()`), which may fail at any
individual frame index (`ret` false becomes `none`). -/
structure VideoSrc (F : Type) where
  fps : ℚ
  total_frames : ℕ
  decode : ℕ → Option F

/-- One accepted slide: its sequence number (`slide_count` at save time),
the sampled frame index, the timestamp `current_time = frame_num / fps`
(line 168), and the accepted raster. -/
structure Slide (F : Type) where
  seq : ℕ
  frameNum : ℕ
  time : ℚ
  image : F
deriving DecidableEq, Repr

/-- The frame-processing loop of `extract_slides` (lines 156-192): walk
the sample points in order; a frame that fails to decode is skipped
(`if not ret: continue`); the first decoded frame is always saved; a later
frame is saved exactly when `diff prev frame` holds, and then becomes the
new comparison reference. -/
def processFrames {F : Type} (v : VideoSrc F) (diff : F → F → Bool) :
    List ℕ → Option F → ℕ → List (Slide F)
  | [], _, _ => []
  | frame_num :: rest, prev_frame, slide_count =>
    match v.decode frame_num with
    | none => processFrames v diff rest prev_frame slide_count
    | some frame =>
      match prev_frame with
      | none =>
        ⟨slide_count, frame_num, (frame_num : ℚ) / v.fps, frame⟩ ::
          processFrames v diff rest (some frame) (slide_count + 1)
      | some pf =>
        if diff pf frame then
          ⟨slide_count, frame_num, (frame_num : ℚ) / v.fps, frame⟩ ::
            processFrames v diff rest (some frame) (slide_count + 1)
        else
          processFrames v diff rest (some pf) slide_count

/-- The sample points visited by the loop header
`for frame_num in range(0, total_frames, frame_interval)` (line 161). -/
def sampledIndices {F : Type} (v : VideoSrc F) (interval : ℕ) : List ℕ :=
  rangeStep v.total_frames (frame_interval v.fps interval).toNat

/-- Model of `SlideExtractor.extract_slides` on an opened video: run the
frame loop over the sampled indices with `_is_different_slide` as the
comparison, starting from no previous frame and slide count 0. -/
def extract_slides {F : Type} (v : VideoSrc F)
    (ssimScore histCorrel : F → F → ℚ) (ocrWords : F → List String)
    (interval : ℕ) (similarity_threshold : ℚ) : List (Slide F) :=
  processFrames v
    (is_different_slide ssimScore histCorrel ocrWords similarity_threshold)
    (sampledIndices v interval) none 0

/-! Threshold behaviour of the evaluator (claim C2). -/

/-- C2 (amended): a single comparison's verdict is monotone in the
threshold in the DIRECT direction: raising the threshold can only turn a
"same" verdict into "different", never the reverse, because the check is
`score < threshold` and the other two signals ignore the threshold.  So
higher (not lower) thresholds are the permissive ones. -/
theorem verdict_monotone_in_threshold {F : Type}
    (ssimScore histCorrel : F → F → ℚ) (ocrWords : F → List String)
    (t1 t2 : ℚ) (a b : F) (hle : t1 ≤ t2)
    (hfire : is_different_slide ssimScore histCorrel ocrWords t1 a b = true) :
    is_different_slide ssimScore histCorrel ocrWords t2 a b = true := by
  rw [isDifferent_eq_signals] at hfire ⊢
  simp only [Bool.or_eq_true] at hfire ⊢
  rcases hfire with (h | h) | h
  · refine Or.inl (Or.inl ?_)
    simp only [ssimSignal, decide_eq_true_eq] at h ⊢
    exact lt_of_lt_of_le h hle
  · exact Or.inl (Or.inr h)
  · exact Or.inr h

/-- Two-frame test video (fps 1, 2 frames, every frame decodes to its own
index). -/
def vTwo : VideoSrc ℕ := ⟨1, 2, fun n => some n⟩

/-- Four-frame test video (fps 1, 4 frames, every frame decodes to its own
index). -/
def vFour : VideoSrc ℕ := ⟨1, 4, fun n => some n⟩

/-- Structural-similarity collaborator that scores every pair 1/2. -/
def halfScore : ℕ → ℕ → ℚ := fun _ _ => 1/2

/-- Structural-similarity collaborator that scores every pair 1/10. -/
def lowScore : ℕ → ℕ → ℚ := fun _ _ => 1/10

/-- Symmetric structural-similarity table on the four-frame test video. -/
def ssim4 (a b : ℕ) : ℚ :=
  if a = b then 1
  else if min a b = 0 ∧ max a b = 1 then 1/2
  else if min a b = 0 ∧ max a b = 2 then 1/4
  else if min a b = 1 ∧ max a b = 2 then 19/20
  else if min a b = 1 ∧ max a b = 3 then 19/20
  else if min a b = 2 ∧ max a b = 3 then 1/5
  else 1/4

/-- C2 counterexample: on `vTwo`, threshold 1/5 yields 1 slide while the
larger threshold 9/10 yields 2 (both thresholds in `[0.1, 1.0]`), so a
lower threshold does NOT give at least as many slides; and on `vFour`,
threshold 3/10 yields 3 slides while 7/10 yields 2, so the slide count is
not monotone in the reversed direction either — only the single-comparison
verdict is monotone. -/
theorem slide_count_threshold_counterexample :
    ((1:ℚ)/10 ≤ 1/5 ∧ (1:ℚ)/5 < 9/10 ∧ (9:ℚ)/10 ≤ 1) ∧
    (extract_slides vTwo halfScore constCorrel noText 1 (1/5)).length = 1 ∧
    (extract_slides vTwo halfScore constCorrel noText 1 (9/10)).length = 2 ∧
    ((1:ℚ)/10 ≤ 3/10 ∧ (3:ℚ)/10 < 7/10 ∧ (7:ℚ)/10 ≤ 1) ∧
    (extract_slides vFour ssim4 constCorrel noText 1 (3/10)).length = 3 ∧
    (extract_slides vFour ssim4 constCorrel noText 1 (7/10)).length = 2 := by
  refine ⟨⟨by norm_num, by norm_num, by norm_num⟩, ?_, ?_, ⟨by norm_num, by norm_num, by norm_num⟩, ?_, ?_⟩ <;>
    norm_num [extract_slides, sampledIndices, vTwo, vFour, rangeStep, frame_interval,
      pyInt, processFrames, is_different_slide, halfScore, ssim4, constCorrel, noText]

/-- Witness for the amended C2 at a concrete comparison: with constant
score 1/10, the verdict fires at threshold 1/5 and therefore also at the
larger threshold 9/10. -/
theorem verdict_monotone_in_threshold_witness :
    ((1:ℚ)/5 ≤ 9/10) ∧
    is_different_slide lowScore constCorrel noText (1/5) 0 1 = true ∧
    is_different_slide lowScore constCorrel noText (9/10) 0 1 = true :=
  ⟨by norm_num,
   by norm_num [is_different_slide, lowScore, constCorrel, noText],
   verdict_monotone_in_threshold lowScore constCorrel noText (1/5) (9/10) 0 1
     (by norm_num)
     (by norm_num [is_different_slide, lowScore, constCorrel, noText])⟩

/-! Sampler arithmetic and per-slide invariants of the frame loop. -/

lemma lt_ceilDiv_iff {t s k : ℕ} (hs : 0 < s) :
    k < (t + s - 1) / s ↔ k * s < t := by
  rw [Nat.lt_iff_add_one_le, Nat.le_div_iff_mul_le hs, add_mul, one_mul]
  generalize k * s = a
  omega

lemma mem_rangeStep {total step i : ℕ} (hstep : 0 < step) :
    i ∈ rangeStep total step ↔ step ∣ i ∧ i < total := by
  unfold rangeStep
  simp only [List.mem_map, List.mem_range]
  constructor
  · rintro ⟨k, hk, rfl⟩
    exact ⟨dvd_mul_left step k, (lt_ceilDiv_iff hstep).mp hk⟩
  · rintro ⟨⟨k, rfl⟩, hlt⟩
    exact ⟨k, (lt_ceilDiv_iff hstep).mpr (by rwa [mul_comm] at hlt), mul_comm k step⟩

lemma rangeStep_pairwise (total step : ℕ) :
    (rangeStep total step).Pairwise (· < ·) := by
  unfold rangeStep
  rcases Nat.eq_zero_or_pos step with h | h
  · subst h
    simp [Nat.div_zero]
  · refine List.Pairwise.map _ (fun a b hab => ?_) (List.pairwise_lt_range _)
    exact Nat.mul_lt_mul_of_lt_of_le hab (le_refl step) h

lemma processFrames_time {F : Type} (v : VideoSrc F) (diff : F → F → Bool) :
    ∀ (pts : List ℕ) (prev : Option F) (c : ℕ) (s : Slide F),
      s ∈ processFrames v diff pts prev c → s.time = (s.frameNum : ℚ) / v.fps := by
  intro pts
  induction pts with
  | nil => intro prev c s h; simp [processFrames] at h
  | cons n rest ih =>
    intro prev c s h
    cases hd : v.decode n with
    | none =>
      simp only [processFrames, hd] at h
      exact ih _ _ _ h
    | some f =>
      cases prev with
      | none =>
        simp only [processFrames, hd] at h
        rcases List.mem_cons.mp h with rfl | h
        · rfl
        · exact ih _ _ _ h
      | some pf =>
        simp only [processFrames, hd] at h
        by_cases hdiff : diff pf f
        · rw [if_pos hdiff] at h
          rcases List.mem_cons.mp h with rfl | h
          · rfl
          · exact ih _ _ _ h
        · rw [if_neg hdiff] at h
          exact ih _ _ _ h

lemma processFrames_frameNum_mem {F : Type} (v : VideoSrc F) (diff : F → F → Bool) :
    ∀ (pts : List ℕ) (prev : Option F) (c : ℕ) (s : Slide F),
      s ∈ processFrames v diff pts prev c → s.frameNum ∈ pts := by
  intro pts
  induction pts with
  | nil => intro prev c s h; simp [processFrames] at h
  | cons n rest ih =>
    intro prev c s h
    cases hd : v.decode n with
    | none =>
      simp only [processFrames, hd] at h
      exact List.mem_cons_of_mem n (ih _ _ _ h)
    | some f =>
      cases prev with
      | none =>
        simp only [processFrames, hd] at h
        rcases List.mem_cons.mp h with rfl | h
        · exact List.mem_cons_self n rest
        · exact List.mem_cons_of_mem n (ih _ _ _ h)
      | some pf =>
        simp only [processFrames, hd] at h
        by_cases hdiff : diff pf f
        · rw [if_pos hdiff] at h
          rcases List.mem_cons.mp h with rfl | h
          · exact List.mem_cons_self n rest
          · exact List.mem_cons_of_mem n (ih _ _ _ h)
        · rw [if_neg hdiff] at h
          exact List.mem_cons_of_mem n (ih _ _ _ h)

/-- Fractional-rate test video: fps 3/2, 4 frames, all decodable. -/
def vFrac : VideoSrc ℕ := ⟨3/2, 4, fun n => some n⟩

/-- Hundred-frame test video at fps 10, all decodable. -/
def vHundred : VideoSrc ℕ := ⟨10, 100, fun n => some n⟩

/-- C4 counterexample: on a video with `fps = 3/2` and 4 frames at
`interval = 1`, the code computes `int(fps * interval) = 1` (truncation)
and visits frames `[0, 1, 2, 3]`, while the claim's `round(fps * interval)
= 2` predicts visits `[0, 2]`.  The sampler truncates; it does not round. -/
theorem sampler_rounding_counterexample :
    frame_interval vFrac.fps 1 = 1 ∧ round (vFrac.fps * (1 : ℕ)) = 2 ∧
    sampledIndices vFrac 1 = [0, 1, 2, 3] ∧
    (List.range 2).map (fun k => k * 2) = [0, 2] ∧
    sampledIndices vFrac 1 ≠ (List.range 2).map (fun k => k * 2) := by
  have h1 : frame_interval vFrac.fps 1 = 1 := by
    norm_num [frame_interval, pyInt, vFrac]
  have h2 : round (vFrac.fps * (1 : ℕ)) = 2 := by
    rw [round_eq]
    norm_num [vFrac]
  have h3 : sampledIndices vFrac 1 = [0, 1, 2, 3] := by
    unfold sampledIndices
    rw [h1]
    decide
  refine ⟨h1, h2, h3, by decide, ?_⟩
  rw [h3]
  decide

/-- C4 (amended): the sampler visits exactly the multiples of the
TRUNCATED product `int(fps * interval)` that lie below the total frame
count; every produced slide carries `timestamp = frame_num / fps`; and a
sample point that fails to decode is skipped without terminating the
sequence. -/
theorem sampler_visits_truncated_multiples {F : Type} (v : VideoSrc F)
    (interval : ℕ) (hstep : 0 < (frame_interval v.fps interval).toNat) :
    (∀ i, i ∈ sampledIndices v interval ↔
      (frame_interval v.fps interval).toNat ∣ i ∧ i < v.total_frames) ∧
    (∀ (ssimScore histCorrel : F → F → ℚ) (ocrWords : F → List String)
        (t : ℚ) (s : Slide F),
        s ∈ extract_slides v ssimScore histCorrel ocrWords interval t →
        s.time = (s.frameNum : ℚ) / v.fps) ∧
    (∀ (diff : F → F → Bool) (pts : List ℕ) (n : ℕ) (prev : Option F) (c : ℕ),
        v.decode n = none →
        processFrames v diff (n :: pts) prev c = processFrames v diff pts prev c) := by
  refine ⟨fun i => mem_rangeStep hstep, ?_, ?_⟩
  · intro s1 h1 o1 t s hs
    exact processFrames_time v _ _ _ _ s hs
  · intro diff pts n prev c h
    simp [processFrames, h]

/-- Witness for the amended C4 on `vHundred` (fps 10, interval 2,
100 frames): the step is positive, the sample points are exactly
`[0, 20, 40, 60, 80]`, and index 20 is characterized by the theorem. -/
theorem sampler_visits_truncated_multiples_witness :
    0 < (frame_interval vHundred.fps 2).toNat ∧
    sampledIndices vHundred 2 = [0, 20, 40, 60, 80] ∧
    (20 ∈ sampledIndices vHundred 2 ↔
      (frame_interval vHundred.fps 2).toNat ∣ 20 ∧ 20 < vHundred.total_frames) := by
  have h1 : frame_interval vHundred.fps 2 = 20 := by
    norm_num [frame_interval, pyInt, vHundred]
  refine ⟨by rw [h1]; norm_num, ?_,
    (sampler_visits_truncated_multiples vHundred 2 (by rw [h1]; norm_num)).1 20⟩
  unfold sampledIndices
  rw [h1]
  decide

/-! Slide numbering and ordering (claim C6). -/

lemma processFrames_seq_map {F : Type} (v : VideoSrc F) (diff : F → F → Bool) :
    ∀ (pts : List ℕ) (prev : Option F) (c : ℕ),
      (processFrames v diff pts prev c).map Slide.seq =
        List.range' c (processFrames v diff pts prev c).length := by
  intro pts
  induction pts with
  | nil => intro prev c; simp [processFrames]
  | cons n rest ih =>
    intro prev c
    cases hd : v.decode n with
    | none =>
      simp only [processFrames, hd]
      exact ih _ _
    | some f =>
      cases prev with
      | none =>
        simp only [processFrames, hd, List.map_cons, List.length_cons,
          List.range'_succ]
        rw [ih]
      | some pf =>
        simp only [processFrames, hd]
        by_cases hdiff : diff pf f
        · rw [if_pos hdiff]
          simp only [List.map_cons, List.length_cons, List.range'_succ]
          rw [ih]
        · rw [if_neg hdiff]
          exact ih _ _

lemma processFrames_frameNum_pairwise {F : Type} (v : VideoSrc F)
    (diff : F → F → Bool) :
    ∀ (pts : List ℕ) (prev : Option F) (c : ℕ), pts.Pairwise (· < ·) →
      (processFrames v diff pts prev c).Pairwise
        (fun s1 s2 => s1.frameNum < s2.frameNum) := by
  intro pts
  induction pts with
  | nil => intro prev c _; simp [processFrames]
  | cons n rest ih =>
    intro prev c hp
    rcases List.pairwise_cons.mp hp with ⟨hall, htail⟩
    cases hd : v.decode n with
    | none =>
      simp only [processFrames, hd]
      exact ih _ _ htail
    | some f =>
      cases prev with
      | none =>
        simp only [processFrames, hd]
        refine List.pairwise_cons.mpr ⟨fun s hs => ?_, ih _ _ htail⟩
        exact hall s.frameNum (processFrames_frameNum_mem v diff _ _ _ s hs)
      | some pf =>
        simp only [processFrames, hd]
        by_cases hdiff : diff pf f
        · rw [if_pos hdiff]
          refine List.pairwise_cons.mpr ⟨fun s hs => ?_, ih _ _ htail⟩
          exact hall s.frameNum (processFrames_frameNum_mem v diff _ _ _ s hs)
        · rw [if_neg hdiff]
          exact ih _ _ htail

/-- C6: for every completed extraction run producing `k` slides, the slide
sequence numbers are exactly `0, 1, ..., k-1` in order, the timestamps are
strictly increasing, and no two slides come from the same accepted frame
(the sampled frame indices of the slides are pairwise distinct). -/
theorem slide_numbering_invariant {F : Type} (v : VideoSrc F)
    (ssimScore histCorrel : F → F → ℚ) (ocrWords : F → List String)
    (interval : ℕ) (threshold : ℚ) (hfps : 0 < v.fps) :
    (extract_slides v ssimScore histCorrel ocrWords interval threshold).map Slide.seq =
      List.range
        (extract_slides v ssimScore histCorrel ocrWords interval threshold).length ∧
    (extract_slides v ssimScore histCorrel ocrWords interval threshold).Pairwise
      (fun s1 s2 => s1.time < s2.time) ∧
    ((extract_slides v ssimScore histCorrel ocrWords interval threshold).map
      Slide.frameNum).Nodup := by
  have hsorted : (sampledIndices v interval).Pairwise (· < ·) :=
    rangeStep_pairwise _ _
  have hfn := processFrames_frameNum_pairwise v
    (is_different_slide ssimScore histCorrel ocrWords threshold)
    (sampledIndices v interval) none 0 hsorted
  refine ⟨?_, ?_, ?_⟩
  · rw [List.range_eq_range']
    exact processFrames_seq_map v _ _ _ _
  · refine List.Pairwise.imp_of_mem ?_ hfn
    intro s1 s2 h1 h2 hlt
    rw [processFrames_time v _ _ _ _ s1 h1, processFrames_time v _ _ _ _ s2 h2]
    exact (div_lt_div_iff_of_pos_right hfps).mpr (by exact_mod_cast hlt)
  · exact List.pairwise_map.mpr (hfn.imp fun hab => Nat.ne_of_lt hab)

/-- Witness for C6 on `vTwo` with threshold 9/10 (which accepts both
frames): the sequence numbers evaluate to `[0, 1]` and the invariant holds
by the theorem. -/
theorem slide_numbering_invariant_witness :
    (0 : ℚ) < vTwo.fps ∧
    (extract_slides vTwo halfScore constCorrel noText 1 (9/10)).map Slide.seq = [0, 1] ∧
    ((extract_slides vTwo halfScore constCorrel noText 1 (9/10)).map Slide.seq =
      List.range
        (extract_slides vTwo halfScore constCorrel noText 1 (9/10)).length ∧
     (extract_slides vTwo halfScore constCorrel noText 1 (9/10)).Pairwise
       (fun s1 s2 => s1.time < s2.time) ∧
     ((extract_slides vTwo halfScore constCorrel noText 1 (9/10)).map
       Slide.frameNum).Nodup) :=
  ⟨by norm_num [vTwo],
   by norm_num [extract_slides, sampledIndices, vTwo, rangeStep, frame_interval,
     pyInt, processFrames, is_different_slide, halfScore, constCorrel, noText],
   slide_numbering_invariant vTwo halfScore constCorrel noText 1 (9/10)
     (by norm_num [vTwo])⟩

/-! First sampled frame (claim C7). -/

lemma processFrames_head {F : Type} (v : VideoSrc F) (diff : F → F → Bool) :
    ∀ (pts : List ℕ) (p0 : ℕ) (f0 : F),
      pts.find? (fun p => (v.decode p).isSome) = some p0 →
      v.decode p0 = some f0 →
      (processFrames v diff pts none 0).head? =
        some ⟨0, p0, (p0 : ℚ) / v.fps, f0⟩ := by
  intro pts
  induction pts with
  | nil => intro p0 f0 h _; simp at h
  | cons n rest ih =>
    intro p0 f0 hfind hdec
    cases hd : v.decode n with
    | none =>
      rw [List.find?_cons_of_neg _ (by simp [hd])] at hfind
      simp only [processFrames, hd]
      exact ih p0 f0 hfind hdec
    | some f =>
      rw [List.find?_cons_of_pos _ (by simp [hd])] at hfind
      injection hfind with h
      subst h
      rw [hd] at hdec
      injection hdec with h2
      subst h2
      simp only [processFrames, hd, List.head?_cons]

/-- C7: the first sampled frame that decodes is always accepted as Slide 0
with no similarity comparison: whatever the threshold and the similarity,
histogram and OCR collaborators, the first slide of the output is that
frame, numbered 0 and timestamped at its index over fps. -/
theorem first_frame_always_slide_zero {F : Type} (v : VideoSrc F)
    (ssimScore histCorrel : F → F → ℚ) (ocrWords : F → List String)
    (interval : ℕ) (threshold : ℚ) (p0 : ℕ) (f0 : F)
    (hfind : (sampledIndices v interval).find?
      (fun p => (v.decode p).isSome) = some p0)
    (hdec : v.decode p0 = some f0) :
    (extract_slides v ssimScore histCorrel ocrWords interval threshold).head? =
      some ⟨0, p0, (p0 : ℚ) / v.fps, f0⟩ :=
  processFrames_head v _ _ p0 f0 hfind hdec

/-- Two-frame test video whose frame 0 fails to decode. -/
def vSkip : VideoSrc ℕ := ⟨1, 2, fun n => if n = 0 then none else some n⟩

/-- Witness for C7 on `vSkip`: frame 0 fails to decode, so the first
decodable sample point is 1 and it becomes Slide 0 (threshold 7/10). -/
theorem first_frame_always_slide_zero_witness :
    (sampledIndices vSkip 1).find? (fun p => (vSkip.decode p).isSome) = some 1 ∧
    vSkip.decode 1 = some 1 ∧
    (extract_slides vSkip halfScore constCorrel noText 1 (7/10)).head? =
      some ⟨0, 1, (1 : ℚ) / vSkip.fps, 1⟩ := by
  have hpts : sampledIndices vSkip 1 = [0, 1] := by
    norm_num [sampledIndices, vSkip, rangeStep, frame_interval, pyInt]
    decide
  have hfind : (sampledIndices vSkip 1).find?
      (fun p => (vSkip.decode p).isSome) = some 1 := by
    rw [hpts]; decide
  exact ⟨hfind, rfl,
    first_frame_always_slide_zero vSkip halfScore constCorrel noText 1 (7/10)
      1 1 hfind rfl⟩

/-! Per-job output directories (claims C3 and C9). -/

/-- Model of Python `s.split(sep)` for a one-character separator, on the
character list of the string. -/
def pySplitChar (sep : Char) : List Char → List (List Char)
  | [] => [[]]
  | c :: cs =>
    let r := pySplitChar sep cs
    if c = sep then [] :: r else (c :: r.headD []) :: r.tail

/-- Model of Python `url.split("?v=")` on the character list of the url:
split at each non-overlapping occurrence of `?v=`, scanning left to
right. -/
def pySplitVQ : List Char → List (List Char)
  | [] => [[]]
  | '?' :: 'v' :: '=' :: rest => [] :: pySplitVQ rest
  | c :: cs =>
    let r := pySplitVQ cs
    (c :: r.headD []) :: r.tail

/-- Model of the video-id derivation in `batch_process`
(slide_extractor.py lines 768 and 813):
`url.split("?v=")[-1].split("&")[0] if "?v=" in url else
url.split("/")[-1]`.  A `?v=` occurs in the url exactly when the `?v=`
split has more than one piece. -/
def videoId (url : String) : String :=
  if 1 < (pySplitVQ url.data).length then
    ⟨(pySplitChar (Char.ofNat 38) ((pySplitVQ url.data).getLastD [])).headD []⟩
  else
    ⟨(pySplitChar (Char.ofNat 47) url.data).getLastD []⟩

/-- Model of `video_output_dir = os.path.join(output_dir,
f"video_{video_id}")` (lines 769 and 814). -/
def video_output_dir (output_dir url : String) : String :=
  output_dir ++ "/video_" ++ videoId url

/-- C9 counterexample: the two distinct sources `a/x` and `b/x` derive the
same video id `x` and hence the same output directory, so the
source-to-output-directory mapping is NOT injective over arbitrary
distinct submitted sources. -/
theorem output_dir_not_injective_counterexample :
    ("a/x" : String) ≠ "b/x" ∧
    video_output_dir "slides" "a/x" = video_output_dir "slides" "b/x" := by
  refine ⟨by decide, ?_⟩
  have h1 : videoId "a/x" = "x" := by decide
  have h2 : videoId "b/x" = "x" := by decide
  unfold video_output_dir
  rw [h1, h2]

lemma string_append_cancel_left (a : String) {s t : String}
    (h : a ++ s = a ++ t) : s = t := by
  have hd : a.data ++ s.data = a.data ++ t.data := by
    have hc := congrArg String.data h
    simpa using hc
  have h2 : s.data = t.data := List.append_cancel_left hd
  cases s
  cases t
  exact congrArg String.mk h2

/-- C9 (amended): the mapping from the DERIVED video identifier to the
output directory is injective — jobs whose urls derive distinct video ids
never share an output location — but two distinct urls deriving the same
video id (for example `a/x` and `b/x`) do share one. -/
theorem output_dir_injective_on_video_id (output_dir u1 u2 : String)
    (h : videoId u1 ≠ videoId u2) :
    video_output_dir output_dir u1 ≠ video_output_dir output_dir u2 := by
  intro he
  exact h (string_append_cancel_left (output_dir ++ "/video_") he)

/-- Witness for the amended C9 at the concrete urls `a/x` and `a/y`. -/
theorem output_dir_injective_on_video_id_witness :
    videoId "a/x" ≠ videoId "a/y" ∧
    video_output_dir "slides" "a/x" ≠ video_output_dir "slides" "a/y" :=
  ⟨by decide, output_dir_injective_on_video_id "slides" "a/x" "a/y" (by decide)⟩

/-! Batch coordinator (claim C3). -/

/-- Model of one batch job: the source may fail to fetch or open
(`download_video` returns false, or `cap.isOpened()` is false —
slide_extractor.py lines 133-143), in which case `extract_slides` returns
the empty list; otherwise the extraction loop runs on the opened video. -/
def runJob {F : Type} (video : String → Option (VideoSrc F))
    (ssimScore histCorrel : F → F → ℚ) (ocrWords : F → List String)
    (interval : ℕ) (threshold : ℚ) (url : String) : List (Slide F) :=
  match video url with
  | none => []
  | some v => extract_slides v ssimScore histCorrel ocrWords interval threshold

/-- Model of `batch_process` (slide_extractor.py lines 728-839): every url
is processed and `results[url] = (len(slides), video_output_dir)` is
recorded; the result dictionary is modelled as a partial map from url to
(slide count, output directory).  The sequential and parallel paths record
the same entries; the model folds over the urls in submission order. -/
def batch_process {F : Type} (video : String → Option (VideoSrc F))
    (ssimScore histCorrel : F → F → ℚ) (ocrWords : F → List String)
    (interval : ℕ) (threshold : ℚ) (urls : List String)
    (output_dir : String) : String → Option (ℕ × String) :=
  urls.foldl
    (fun results url =>
      Function.update results url
        (some ((runJob video ssimScore histCorrel ocrWords interval threshold url).length,
          video_output_dir output_dir url)))
    (fun _ => none)

lemma batch_foldl_lookup (entry : String → ℕ × String) :
    ∀ (urls : List String) (init : String → Option (ℕ × String)) (u : String),
      urls.foldl
        (fun results url => Function.update results url (some (entry url)))
        init u =
        if u ∈ urls then some (entry u) else init u := by
  intro urls
  induction urls with
  | nil => intro init u; simp
  | cons x xs ih =>
    intro init u
    rw [List.foldl_cons, ih]
    by_cases hu : u ∈ xs
    · simp [hu]
    · by_cases hx : u = x
      · subst hx
        simp [hu, Function.update_apply]
      · simp [hu, hx, Function.update_apply]

/-- C3: when a batch completes, every submitted url has exactly one entry
in the result mapping, carrying its slide count and its designated output
directory; a url whose source cannot be fetched or opened contributes
`slide_count = 0` (not an omitted entry), and its failure does not remove
any other submitted url's entry. -/
theorem batch_result_complete {F : Type} (video : String → Option (VideoSrc F))
    (ssimScore histCorrel : F → F → ℚ) (ocrWords : F → List String)
    (interval : ℕ) (threshold : ℚ) (urls : List String) (output_dir : String)
    (u : String) (hu : u ∈ urls) :
    batch_process video ssimScore histCorrel ocrWords interval threshold
        urls output_dir u =
      some ((runJob video ssimScore histCorrel ocrWords interval threshold u).length,
        video_output_dir output_dir u) ∧
    (video u = none →
      batch_process video ssimScore histCorrel ocrWords interval threshold
          urls output_dir u =
        some (0, video_output_dir output_dir u)) := by
  have h : batch_process video ssimScore histCorrel ocrWords interval threshold
      urls output_dir u =
      if u ∈ urls then
        some ((runJob video ssimScore histCorrel ocrWords interval threshold u).length,
          video_output_dir output_dir u)
      else none :=
    batch_foldl_lookup
      (fun url =>
        ((runJob video ssimScore histCorrel ocrWords interval threshold url).length,
          video_output_dir output_dir url)) urls (fun _ => none) u
  rw [h, if_pos hu]
  refine ⟨rfl, fun hv => ?_⟩
  simp [runJob, hv]

/-- Concrete batch source map: `ok/a` opens as the two-frame test video,
every other url fails to fetch. -/
def batchVideo : String → Option (VideoSrc ℕ) :=
  fun u => if u = "ok/a" then some vTwo else none

/-- Witness for C3 on the concrete batch `[ok/a, bad/b]`: the failing url
`bad/b` still gets a result entry, with slide count 0 and its own output
directory. -/
theorem batch_result_complete_witness :
    ("bad/b" : String) ∈ ["ok/a", "bad/b"] ∧ batchVideo "bad/b" = none ∧
    batch_process batchVideo halfScore constCorrel noText 1 (9/10)
        ["ok/a", "bad/b"] "slides" "bad/b" =
      some (0, video_output_dir "slides" "bad/b") := by
  have hmem : ("bad/b" : String) ∈ ["ok/a", "bad/b"] := by simp
  have hnone : batchVideo "bad/b" = none := by
    unfold batchVideo
    rw [if_neg (by decide)]
  exact ⟨hmem, hnone,
    (batch_result_complete batchVideo halfScore constCorrel noText 1 (9/10)
      ["ok/a", "bad/b"] "slides" "bad/b" hmem).2 hnone⟩

/-! Exporter (claim C5). -/

/-- Outcome of the export step at the end of `extract_slides`
(slide_extractor.py lines 204-209): an error report (the converter prints
and returns `None`), a produced artifact with its ordered pages, or no
export step at all. -/
inductive ExportOutcome (F : Type) where
  | errorReported (message : String)
  | artifact (path : String) (pages : List (Slide F))
  | noExport
deriving DecidableEq

/-- Model of `convert_slides_to_pdf` on an explicit slide list (lines
337-400): with no slides it reports "No slide images found" and returns
`None` instead of a path; otherwise it creates `slides_output.pdf` with
one page per slide in order. -/
def convert_slides_to_pdf {F : Type} (output_dir : String)
    (slides : List (Slide F)) : ExportOutcome F :=
  if slides.isEmpty then
    .errorReported "No slide images found to convert to PDF."
  else .artifact (output_dir ++ "/slides_output.pdf") slides

/-- Model of `convert_slides_to_html` on an explicit slide list (lines
402-716): with no slides it reports "No slide images found" and returns
`None`; otherwise it creates `slides_output.html` with one panel per slide
in order. -/
def convert_slides_to_html {F : Type} (output_dir : String)
    (slides : List (Slide F)) : ExportOutcome F :=
  if slides.isEmpty then
    .errorReported "No slide images found to convert to HTML."
  else .artifact (output_dir ++ "/slides_output.html") slides

/-- The export dispatch of `extract_slides` (lines 204-209): `pdf` and
`html` invoke their converters, any other format (`images`) performs no
export call at all. -/
def exportSlides {F : Type} (export_format output_dir : String)
    (slides : List (Slide F)) : ExportOutcome F :=
  if export_format = "pdf" then convert_slides_to_pdf output_dir slides
  else if export_format = "html" then convert_slides_to_html output_dir slides
  else .noExport

/-- C5: exporting an empty slide sequence is reported as a failure (an
error report, never an artifact) for the PDF (Document) and HTML
(Interactive) formats, and for the images (RawImages) format no export
step runs and no error is reported. -/
theorem export_empty_slide_sequence {F : Type} (output_dir : String) :
    @exportSlides F "pdf" output_dir [] =
      .errorReported "No slide images found to convert to PDF." ∧
    @exportSlides F "html" output_dir [] =
      .errorReported "No slide images found to convert to HTML." ∧
    @exportSlides F "images" output_dir [] = .noExport ∧
    (∀ path pages, @exportSlides F "pdf" output_dir [] ≠ .artifact path pages) ∧
    (∀ path pages, @exportSlides F "html" output_dir [] ≠ .artifact path pages) ∧
    (∀ message, @exportSlides F "images" output_dir [] ≠ .errorReported message) := by
  refine ⟨?_, ?_, ?_, ?_, ?_, ?_⟩ <;>
    simp [exportSlides, convert_slides_to_pdf, convert_slides_to_html]

/-! Configuration validation (claim C8, main.py lines 603-665). -/

/-- Outcome of the GUI extract request: either rejected with an error
dialog before anything else happens, or started, carrying the extraction
the spawned worker performs (empty when the source fails to fetch or
open). -/
inductive GuiOutcome (F : Type) where
  | rejected (message : String)
  | started (slides : List (Slide F))

/-- Model of `main.py extract_slides` (lines 603-665; the batch path at
lines 729-740 performs the same checks): after parsing, an interval below
1 is rejected, then a threshold outside `[0.1, 1.0]` is rejected, each
with an error dialog and an immediate return; only otherwise is the
extraction worker started. -/
def gui_extract_slides {F : Type} (interval : ℤ) (threshold : ℚ)
    (video : Option (VideoSrc F)) (ssimScore histCorrel : F → F → ℚ)
    (ocrWords : F → List String) : GuiOutcome F :=
  if interval < 1 then .rejected "Interval must be at least 1 second"
  else if threshold < 1/10 ∨ 1 < threshold then
    .rejected "Threshold must be between 0.1 and 1.0"
  else
    .started (match video with
      | none => []
      | some v =>
        extract_slides v ssimScore histCorrel ocrWords interval.toNat threshold)

/-- Whether a GUI outcome is a pre-processing rejection. -/
def isRejected {F : Type} : GuiOutcome F → Bool
  | .rejected _ => true
  | .started _ => false

/-- C8: a configuration whose threshold lies outside `[0.1, 1.0]` or whose
interval is below 1 is rejected as a configuration error before any
processing: the outcome is a rejection dialog and no extraction run (no
download, sampling, comparison or export) is started. -/
theorem config_out_of_range_rejected {F : Type} (interval : ℤ) (threshold : ℚ)
    (video : Option (VideoSrc F)) (ssimScore histCorrel : F → F → ℚ)
    (ocrWords : F → List String)
    (h : interval < 1 ∨ threshold < 1/10 ∨ 1 < threshold) :
    isRejected (gui_extract_slides interval threshold video ssimScore
      histCorrel ocrWords) = true ∧
    ∀ slides, gui_extract_slides interval threshold video ssimScore
      histCorrel ocrWords ≠ .started slides := by
  unfold gui_extract_slides
  by_cases hi : interval < 1
  · rw [if_pos hi]
    exact ⟨rfl, fun slides => by simp⟩
  · rcases h with h | h
    · exact absurd h hi
    · rw [if_neg hi, if_pos h]
      exact ⟨rfl, fun slides => by simp⟩

/-- Witness for C8 at the concrete out-of-range threshold 5 with interval
2: the request is rejected. -/
theorem config_out_of_range_rejected_witness :
    ((2 : ℤ) < 1 ∨ (5 : ℚ) < 1/10 ∨ (1 : ℚ) < 5) ∧
    isRejected (gui_extract_slides 2 5 (some vTwo) halfScore constCorrel
      noText) = true :=
  ⟨Or.inr (Or.inr (by norm_num)),
   (config_out_of_range_rejected 2 5 (some vTwo) halfScore constCorrel noText
     (Or.inr (Or.inr (by norm_num)))).1⟩

end SlideExtractor
